import Mathlib

/-!
Shallow embedding of `src/api/chat.ts` from the spanish-flashcards-api
repository: a single serverless handler with an in-memory fixed-window
rate limiter, Bearer-token authentication, payload validation, and an
upstream chat-completion call.

The mutable module-level `rateLimitMap` becomes an explicit state value
(an association list) threaded through `checkRateLimit` and `handler`.
`Date.now()` becomes an explicit `now : Nat` argument (epoch
milliseconds).  The environment variable `BETA_API_KEY`
(`process.env.BETA_API_KEY`, possibly unset) becomes an
`Option String` argument.  The outcome of the `fetch` call to the
upstream completion API becomes an explicit `UpstreamOutcome` argument,
covering a thrown transport exception, a non-ok HTTP response, and an
ok response with a parsed JSON body.
-/

/-- One value of the `rateLimitMap`: `{ count: number; resetTime: number }`
from `src/api/chat.ts` line 4.  Timestamps are epoch milliseconds. -/
structure RateLimitEntry where
  count : Nat
  resetTime : Nat
  deriving Repr, DecidableEq

/-- The module-level `rateLimitMap : Map<string, {count, resetTime}>`,
modelled as an association list from client key to entry (first binding
for a key wins, mirroring `Map.get`). -/
abbrev RateLimitMap := List (String × RateLimitEntry)

/-- The shape of the `RATE_LIMIT` configuration constant. -/
structure RateLimitConfig where
  maxRequests : Nat
  windowMs : Nat
  deriving Repr, DecidableEq

/-- `RATE_LIMIT` from `src/api/chat.ts` lines 7-10: 100 requests per
1-hour window (3600000 ms). -/
def RATE_LIMIT : RateLimitConfig :=
  { maxRequests := 100
    windowMs := 60 * 60 * 1000 }

/-- `rateLimitMap.get(key)`: the entry stored for `key`, if any. -/
def mapGet (m : RateLimitMap) (key : String) : Option RateLimitEntry :=
  match m with
  | [] => none
  | (k, v) :: rest => if k = key then some v else mapGet rest key

/-- `rateLimitMap.set(key, value)`: update the binding for `key` in
place if present, otherwise append it (JavaScript `Map` insertion
order). -/
def mapSet (m : RateLimitMap) (key : String) (v : RateLimitEntry) : RateLimitMap :=
  match m with
  | [] => [(key, v)]
  | (k, v') :: rest =>
      if k = key then (key, v) :: rest else (k, v') :: mapSet rest key v

/-- The record returned by `checkRateLimit`.  `remaining` is an `Int`
because JavaScript computes it as a (possibly negative in principle)
number `maxRequests - count`. -/
structure RateLimitResult where
  allowed : Bool
  remaining : Int
  resetTime : Nat
  deriving Repr, DecidableEq

/-- `checkRateLimit(ip)` from `src/api/chat.ts` lines 12-46, with the
implicit inputs (`Date.now()` and the module map) made explicit, and
returning the updated map alongside the result.

Source logic: look up the entry for the key; if absent or `now >
entry.resetTime`, use a fresh `{count: 0, resetTime: now + windowMs}`;
if `entry.count >= maxRequests`, persist the entry unchanged and deny
with `remaining = 0`; otherwise increment `count`, persist, and allow
with `remaining = maxRequests - count`. -/
def checkRateLimit (ip : String) (now : Nat) (m : RateLimitMap) :
    RateLimitResult × RateLimitMap :=
  let key := ip
  let entry : RateLimitEntry :=
    match mapGet m key with
    | none => { count := 0, resetTime := now + RATE_LIMIT.windowMs }
    | some e =>
        if now > e.resetTime then
          { count := 0, resetTime := now + RATE_LIMIT.windowMs }
        else e
  if entry.count ≥ RATE_LIMIT.maxRequests then
    ({ allowed := false, remaining := 0, resetTime := entry.resetTime },
     mapSet m key entry)
  else
    let entry' : RateLimitEntry := { entry with count := entry.count + 1 }
    ({ allowed := true
       remaining := (RATE_LIMIT.maxRequests : Int) - (entry'.count : Int)
       resetTime := entry'.resetTime },
     mapSet m key entry')

/-- The pieces of the inbound `VercelRequest` that `handler` reads:
the method, the three headers, `req.connection?.remoteAddress`, and
`req.body.message`.  `none` models an absent header / field; for
`message`, `some ""` models the empty string (both are falsy in the
`!message` check). -/
structure Request where
  method : String
  xForwardedFor : Option String
  xRealIp : Option String
  remoteAddress : Option String
  authorization : Option String
  message : Option String
  deriving Repr, DecidableEq

/-- JavaScript `a || b` on string-or-undefined values: `a` wins unless
it is falsy (undefined or the empty string). -/
def jsOr (a b : Option String) : Option String :=
  match a with
  | none => b
  | some s => if s = "" then b else some s

/-- `s.split(',')[0]`: the first comma-separated segment (JavaScript
`split` always yields a non-empty array). -/
def splitFirst (s : String) : String :=
  (s.splitOn ",").headD ""

/-- The client-identity derivation from `src/api/chat.ts` lines 54-57:
`(req.headers['x-forwarded-for'])?.split(',')[0] ||
req.headers['x-real-ip'] || req.connection?.remoteAddress ||
'unknown'`. -/
def clientIP (req : Request) : String :=
  (jsOr (jsOr (jsOr (req.xForwardedFor.map splitFirst) req.xRealIp)
      req.remoteAddress) (some "unknown")).getD "unknown"

/-- JavaScript `s.startsWith(pre)`, computed on the underlying
character lists. -/
def jsStartsWith (s pre : String) : Bool :=
  pre.data.isPrefixOf s.data

/-- JavaScript `String.prototype.replace` with a plain-string pattern:
replaces only the first occurrence of `pat` (scanning left to right)
with `repl`; if `pat` does not occur, the string is unchanged.
Character-list worker. -/
def replaceFirstList (pat repl : List Char) : List Char → List Char
  | [] => if pat = [] then repl else []
  | c :: rest =>
      if pat.isPrefixOf (c :: rest) then repl ++ (c :: rest).drop pat.length
      else c :: replaceFirstList pat repl rest

/-- `s.replace(pat, repl)` for string pattern `pat`: first occurrence
only, as in JavaScript. -/
def jsReplace (s pat repl : String) : String :=
  String.mk (replaceFirstList pat.data repl.data s.data)

/-- Models `new Date(ms).toISOString()`.  The handler only interpolates
this string into the human-readable `message` field of the 429 body;
no verified property depends on its exact format, so the rendering is
kept abstract (the timestamp printed in decimal) rather than
reproducing ISO-8601 calendar arithmetic. -/
def toISOString (ms : Nat) : String :=
  toString ms

/-- A JSON response body sent by the handler: each of the fields that
some `res.json({...})` call in `src/api/chat.ts` uses, `none` when the
field is absent from that body. -/
structure ResponseJson where
  error : Option String := none
  message : Option String := none
  resetTime : Option Nat := none
  response : Option String := none
  deriving Repr, DecidableEq

/-- The externally visible response: status code, JSON body, and the
headers set via `res.setHeader` (name, numeric value) before the body
was sent. -/
structure HttpResponse where
  status : Nat
  body : ResponseJson
  headers : List (String × Int)
  deriving Repr, DecidableEq

/-- The parsed JSON body of an ok upstream response:
`{ choices: [{ message: { content } }] }`.  `content : Option String`
models a present-or-null content; an absent `message` object is
`none`. -/
structure UpstreamMessage where
  content : Option String
  deriving Repr, DecidableEq

/-- One element of the upstream `choices` array. -/
structure UpstreamChoice where
  message : Option UpstreamMessage
  deriving Repr, DecidableEq

/-- The parsed JSON body returned by `response.json()`. -/
structure UpstreamData where
  choices : List UpstreamChoice
  deriving Repr, DecidableEq

/-- The outcome of `fetch('https://api.openai.com/...')`: either the
promise rejects (network/transport exception, also covering a
`json()` failure), or a response arrives with its `ok` flag, status
code, and parsed body. -/
inductive UpstreamOutcome where
  | exception
  | response (ok : Bool) (status : Nat) (data : UpstreamData)
  deriving Repr, DecidableEq

/-- `data.choices[0]?.message?.content` with optional chaining: `none`
when the array is empty, the `message` object is absent, or `content`
is null. -/
def extractContent (d : UpstreamData) : Option String :=
  (d.choices.head?.bind (fun c => c.message)).bind (fun msg => msg.content)

/-- Everything observable about one `handler` invocation: the HTTP
response produced, the rate-limit map afterwards, and whether the
upstream `fetch` was invoked. -/
structure HandlerOutcome where
  response : HttpResponse
  map : RateLimitMap
  upstreamCalled : Bool
  deriving Repr, DecidableEq

/-- The default-export `handler` from `src/api/chat.ts` lines 48-136,
with the implicit inputs explicit: `betaApiKey` is
`process.env.BETA_API_KEY`, `now` is `Date.now()` inside
`checkRateLimit`, `upstream` is the outcome of the `fetch` call (only
consulted when the code reaches it), and `m` is the rate-limit map
before the call.

Control flow mirrors the source's early returns: non-POST → 405;
rate-check denial → 429 (before any `setHeader`); then the three
`X-RateLimit-*` headers are set; missing/`Bearer `-less authorization
→ 401 "Authorization header required"; token mismatch → 401 "Invalid
API key"; falsy `message` → 400; then the upstream call, whose three
failure shapes all land in the `catch` → 500; otherwise 200 with the
extracted content. -/
def handler (req : Request) (betaApiKey : Option String) (now : Nat)
    (upstream : UpstreamOutcome) (m : RateLimitMap) : HandlerOutcome :=
  if req.method ≠ "POST" then
    { response := { status := 405, body := { error := some "Method not allowed" }, headers := [] }
      map := m
      upstreamCalled := false }
  else
    let ip := clientIP req
    let rl := (checkRateLimit ip now m).1
    let m' := (checkRateLimit ip now m).2
    if rl.allowed = false then
      { response :=
          { status := 429
            body :=
              { error := some "Rate limit exceeded"
                message := some ("Too many requests. Rate limit resets at "
                  ++ toISOString rl.resetTime)
                resetTime := some rl.resetTime }
            headers := [] }
        map := m'
        upstreamCalled := false }
    else
      let hdrs : List (String × Int) :=
        [("X-RateLimit-Limit", (RATE_LIMIT.maxRequests : Int)),
         ("X-RateLimit-Remaining", rl.remaining),
         ("X-RateLimit-Reset", (rl.resetTime : Int))]
      match req.authorization with
      | none =>
          { response :=
              { status := 401, body := { error := some "Authorization header required" }
                headers := hdrs }
            map := m'
            upstreamCalled := false }
      | some auth =>
          if jsStartsWith auth "Bearer " = false then
            { response :=
                { status := 401, body := { error := some "Authorization header required" }
                  headers := hdrs }
              map := m'
              upstreamCalled := false }
          else
            let providedKey := jsReplace auth "Bearer " ""
            if betaApiKey ≠ some providedKey then
              { response :=
                  { status := 401, body := { error := some "Invalid API key" }
                    headers := hdrs }
                map := m'
                upstreamCalled := false }
            else
              match req.message with
              | none =>
                  { response :=
                      { status := 400, body := { error := some "Message is required" }
                        headers := hdrs }
                    map := m'
                    upstreamCalled := false }
              | some msg =>
                  if msg = "" then
                    { response :=
                        { status := 400, body := { error := some "Message is required" }
                          headers := hdrs }
                      map := m'
                      upstreamCalled := false }
                  else
                    match upstream with
                    | UpstreamOutcome.exception =>
                        { response :=
                            { status := 500
                              body := { error := some "Failed to get response from AI" }
                              headers := hdrs }
                          map := m'
                          upstreamCalled := true }
                    | UpstreamOutcome.response ok _status data =>
                        if ok = false then
                          { response :=
                              { status := 500
                                body := { error := some "Failed to get response from AI" }
                                headers := hdrs }
                            map := m'
                            upstreamCalled := true }
                        else
                          match extractContent data with
                          | none =>
                              { response :=
                                  { status := 500
                                    body := { error := some "Failed to get response from AI" }
                                    headers := hdrs }
                                map := m'
                                upstreamCalled := true }
                          | some content =>
                              if content = "" then
                                { response :=
                                    { status := 500
                                      body := { error := some "Failed to get response from AI" }
                                      headers := hdrs }
                                  map := m'
                                  upstreamCalled := true }
                              else
                                { response :=
                                    { status := 200
                                      body := { response := some content }
                                      headers := hdrs }
                                  map := m'
                                  upstreamCalled := true }

/-!
Basic lemmas about the association-list map operations.
-/

/-- Looking a key up after `mapSet` yields the new value at that key
and the old binding elsewhere. -/
theorem mapGet_mapSet (m : RateLimitMap) (key k : String) (v : RateLimitEntry) :
    mapGet (mapSet m key v) k = if key = k then some v else mapGet m k := by
  induction m with
  | nil =>
      simp only [mapSet, mapGet]
  | cons hd tl ih =>
      obtain ⟨k', v'⟩ := hd
      by_cases hk : k' = key
      · simp only [mapSet, if_pos hk, mapGet]
        by_cases hkey : key = k
        · simp [hkey]
        · have hk'k : ¬ k' = k := by rw [hk]; exact hkey
          simp [hkey, hk'k]
      · simp only [mapSet, if_neg hk, mapGet, ih]
        by_cases hk2 : k' = k
        · have hkey : ¬ key = k := fun h => hk (hk2.trans h.symm)
          simp [hk2, hkey]
        · simp [hk2]

/-!
Step lemmas describing `checkRateLimit` in each of its branches.
-/

/-- An existing entry that is inside its window (`now ≤ resetTime`) and
under quota is incremented and the call is allowed. -/
theorem checkRateLimit_allowed (ip : String) (now : Nat) (m : RateLimitMap)
    (c r : Nat) (hm : mapGet m ip = some ⟨c, r⟩)
    (hnow : now ≤ r) (hc : c < RATE_LIMIT.maxRequests) :
    checkRateLimit ip now m =
      ({ allowed := true
         remaining := (RATE_LIMIT.maxRequests : Int) - ((c + 1 : Nat) : Int)
         resetTime := r },
       mapSet m ip ⟨c + 1, r⟩) := by
  have h1 : ¬ now > r := by omega
  have h2 : ¬ c ≥ RATE_LIMIT.maxRequests := not_le.mpr hc
  simp [checkRateLimit, hm, h1, h2]

/-- An existing entry inside its window whose count has reached the cap
produces a denial, and the entry is written back as-is. -/
theorem checkRateLimit_denied (ip : String) (now : Nat) (m : RateLimitMap)
    (c r : Nat) (hm : mapGet m ip = some ⟨c, r⟩)
    (hnow : now ≤ r) (hc : RATE_LIMIT.maxRequests ≤ c) :
    checkRateLimit ip now m =
      ({ allowed := false, remaining := 0, resetTime := r },
       mapSet m ip ⟨c, r⟩) := by
  have h1 : ¬ now > r := by omega
  simp [checkRateLimit, hm, h1, hc]

/-- With no stored entry, a call creates a fresh window and is admitted
as request #1. -/
theorem checkRateLimit_fresh (ip : String) (now : Nat) (m : RateLimitMap)
    (hm : mapGet m ip = none) :
    checkRateLimit ip now m =
      ({ allowed := true
         remaining := (RATE_LIMIT.maxRequests : Int) - 1
         resetTime := now + RATE_LIMIT.windowMs },
       mapSet m ip ⟨1, now + RATE_LIMIT.windowMs⟩) := by
  have h2 : ¬ (0 : Nat) ≥ RATE_LIMIT.maxRequests := by decide
  simp [checkRateLimit, hm, h2]

/-- With a stored entry whose `resetTime` is strictly in the past, a
call replaces it by a fresh window and is admitted as request #1. -/
theorem checkRateLimit_rollover (ip : String) (now : Nat) (m : RateLimitMap)
    (c r : Nat) (hm : mapGet m ip = some ⟨c, r⟩) (hnow : r < now) :
    checkRateLimit ip now m =
      ({ allowed := true
         remaining := (RATE_LIMIT.maxRequests : Int) - 1
         resetTime := now + RATE_LIMIT.windowMs },
       mapSet m ip ⟨1, now + RATE_LIMIT.windowMs⟩) := by
  have h1 : now > r := hnow
  have h2 : ¬ (0 : Nat) ≥ RATE_LIMIT.maxRequests := by decide
  simp [checkRateLimit, hm, h1, h2]

/-- C3: for every client key whose stored entry has `resetTime`
strictly in the past (whatever its count, including a maxed-out entry
that was being denied), the next `checkRateLimit` call replaces the
entry with a fresh window — conceptually `count = 0`, `resetTime = now
+ windowMs` — and is admitted as request #1 of that window (`allowed =
true`, `remaining = maxRequests - 1`, stored count 1).  The third
conjunct shows the replacement is lazy per key: the call touches no
other key's entry (and in this embedding the map changes only through
`checkRateLimit` calls, never on a schedule). -/
theorem expired_window_resets (ip : String) (now : Nat) (m : RateLimitMap)
    (e : RateLimitEntry) (hm : mapGet m ip = some e)
    (hpast : e.resetTime < now) :
    (checkRateLimit ip now m).1 =
      { allowed := true
        remaining := (RATE_LIMIT.maxRequests : Int) - 1
        resetTime := now + RATE_LIMIT.windowMs } ∧
    mapGet (checkRateLimit ip now m).2 ip =
      some { count := 1, resetTime := now + RATE_LIMIT.windowMs } ∧
    (∀ k, k ≠ ip → mapGet (checkRateLimit ip now m).2 k = mapGet m k) := by
  obtain ⟨c, r⟩ := e
  have heq := checkRateLimit_rollover ip now m c r hm hpast
  rw [heq]
  refine ⟨rfl, ?_, ?_⟩
  · rw [mapGet_mapSet]
    simp
  · intro k hk
    rw [mapGet_mapSet, if_neg (fun h => hk h.symm)]

/-- Witness for C3 at a concrete input: a maxed-out entry whose window
ended at time 5 is observed at time 10 and becomes a fresh window. -/
theorem expired_window_resets_witness :
    (checkRateLimit "a" 10 [("a", ⟨100, 5⟩)]).1 =
      { allowed := true
        remaining := (RATE_LIMIT.maxRequests : Int) - 1
        resetTime := 10 + RATE_LIMIT.windowMs } ∧
    mapGet (checkRateLimit "a" 10 [("a", ⟨100, 5⟩)]).2 "a" =
      some { count := 1, resetTime := 10 + RATE_LIMIT.windowMs } ∧
    mapGet (checkRateLimit "a" 10 [("a", ⟨100, 5⟩)]).2 "b" =
      mapGet [("a", ⟨100, 5⟩)] "b" := by
  have h := expired_window_resets "a" 10 [("a", ⟨100, 5⟩)] ⟨100, 5⟩
    (by decide) (by decide)
  exact ⟨h.1, h.2.1, h.2.2 "b" (by decide)⟩

/-- C5: every `checkRateLimit` call that denies returns `remaining =
0` and leaves the map — in particular the denied key's stored entry,
its count and its resetTime — exactly as it was. -/
theorem denial_is_readonly (ip : String) (now : Nat) (m : RateLimitMap)
    (hdenied : (checkRateLimit ip now m).1.allowed = false) :
    (checkRateLimit ip now m).1.remaining = 0 ∧
    (∀ k, mapGet (checkRateLimit ip now m).2 k = mapGet m k) := by
  cases hmg : mapGet m ip with
  | none =>
      rw [checkRateLimit_fresh ip now m hmg] at hdenied
      simp at hdenied
  | some e =>
      obtain ⟨c, r⟩ := e
      by_cases hr : r < now
      · rw [checkRateLimit_rollover ip now m c r hmg hr] at hdenied
        simp at hdenied
      · have hnow : now ≤ r := by omega
        by_cases hc : c < RATE_LIMIT.maxRequests
        · rw [checkRateLimit_allowed ip now m c r hmg hnow hc] at hdenied
          simp at hdenied
        · have hc' : RATE_LIMIT.maxRequests ≤ c := by omega
          rw [checkRateLimit_denied ip now m c r hmg hnow hc']
          refine ⟨rfl, fun k => ?_⟩
          rw [mapGet_mapSet]
          by_cases hik : ip = k
          · rw [if_pos hik, ← hik, hmg]
          · rw [if_neg hik]

/-- Witness for C5 at a concrete input: a maxed-out entry inside its
window is denied and the map is untouched. -/
theorem denial_is_readonly_witness :
    (checkRateLimit "a" 3 [("a", ⟨100, 5⟩)]).1.remaining = 0 ∧
    mapGet (checkRateLimit "a" 3 [("a", ⟨100, 5⟩)]).2 "a" =
      mapGet [("a", ⟨100, 5⟩)] "a" := by
  have h := denial_is_readonly "a" 3 [("a", ⟨100, 5⟩)] (by decide)
  exact ⟨h.1, h.2 "a"⟩

/-- C9: a call arriving at `now` exactly equal to the stored entry's
`resetTime` does not start a new window: the window boundary survives
(the result's `resetTime` is the old one, not `now + windowMs`), and
the stored entry keeps its identity — its count is incremented if under
quota, kept as-is if at quota, never reset to a fresh window — because
the source rolls the window over only when `now > entry.resetTime`. -/
theorem boundary_keeps_window (ip : String) (m : RateLimitMap)
    (e : RateLimitEntry) (hm : mapGet m ip = some e) :
    (checkRateLimit ip e.resetTime m).1.resetTime = e.resetTime ∧
    mapGet (checkRateLimit ip e.resetTime m).2 ip =
      some (if RATE_LIMIT.maxRequests ≤ e.count then e
            else { count := e.count + 1, resetTime := e.resetTime }) := by
  obtain ⟨c, r⟩ := e
  by_cases hc : c < RATE_LIMIT.maxRequests
  · rw [checkRateLimit_allowed ip r m c r hm le_rfl hc]
    have hnotle : ¬ RATE_LIMIT.maxRequests ≤ c := by omega
    rw [mapGet_mapSet]
    simp [hnotle]
  · have hc' : RATE_LIMIT.maxRequests ≤ c := by omega
    rw [checkRateLimit_denied ip r m c r hm le_rfl hc']
    rw [mapGet_mapSet]
    simp [hc']

/-- Witness for C9 at a concrete input: an entry with `resetTime = 50`
observed at exactly `now = 50` keeps its window and is incremented. -/
theorem boundary_keeps_window_witness :
    (checkRateLimit "a" (50 : Nat) [("a", ⟨7, 50⟩)]).1.resetTime = 50 ∧
    mapGet (checkRateLimit "a" (50 : Nat) [("a", ⟨7, 50⟩)]).2 "a" =
      some (if RATE_LIMIT.maxRequests ≤ (7 : Nat) then (⟨7, 50⟩ : RateLimitEntry)
            else { count := 7 + 1, resetTime := 50 }) :=
  boundary_keeps_window "a" [("a", ⟨7, 50⟩)] ⟨7, 50⟩ (by decide)

/-!
Reachable states of the rate-limit map and the count invariant (C4).
-/

/-- The states of the module-level `rateLimitMap` reachable from the
initial empty map by any finite sequence of `checkRateLimit` calls
(the only code that mutates the map). -/
inductive Reachable : RateLimitMap → Prop where
  | empty : Reachable []
  | step (ip : String) (now : Nat) (m : RateLimitMap) :
      Reachable m → Reachable (checkRateLimit ip now m).2

/-- One `checkRateLimit` call preserves the bound `count ≤ maxRequests`
for every stored entry. -/
theorem checkRateLimit_preserves_count_le (ip : String) (now : Nat)
    (m : RateLimitMap)
    (h : ∀ k e, mapGet m k = some e → e.count ≤ RATE_LIMIT.maxRequests) :
    ∀ k e, mapGet (checkRateLimit ip now m).2 k = some e →
      e.count ≤ RATE_LIMIT.maxRequests := by
  intro k e hk
  cases hmg : mapGet m ip with
  | none =>
      rw [checkRateLimit_fresh ip now m hmg] at hk
      simp only [mapGet_mapSet] at hk
      by_cases hik : ip = k
      · rw [if_pos hik] at hk
        have he := Option.some.inj hk
        rw [← he]
        simp [RATE_LIMIT]
      · rw [if_neg hik] at hk
        exact h k e hk
  | some e0 =>
      obtain ⟨c, r⟩ := e0
      by_cases hr : r < now
      · rw [checkRateLimit_rollover ip now m c r hmg hr] at hk
        simp only [mapGet_mapSet] at hk
        by_cases hik : ip = k
        · rw [if_pos hik] at hk
          have he := Option.some.inj hk
          rw [← he]
          simp [RATE_LIMIT]
        · rw [if_neg hik] at hk
          exact h k e hk
      · have hnow : now ≤ r := by omega
        by_cases hc : c < RATE_LIMIT.maxRequests
        · rw [checkRateLimit_allowed ip now m c r hmg hnow hc] at hk
          simp only [mapGet_mapSet] at hk
          by_cases hik : ip = k
          · rw [if_pos hik] at hk
            have he := Option.some.inj hk
            rw [← he]
            exact hc
          · rw [if_neg hik] at hk
            exact h k e hk
        · have hc' : RATE_LIMIT.maxRequests ≤ c := by omega
          rw [checkRateLimit_denied ip now m c r hmg hnow hc'] at hk
          simp only [mapGet_mapSet] at hk
          by_cases hik : ip = k
          · rw [if_pos hik] at hk
            have he := Option.some.inj hk
            rw [← he]
            exact h ip ⟨c, r⟩ hmg
          · rw [if_neg hik] at hk
            exact h k e hk

/-- C4: in every state of the rate-limit map reachable from the empty
map by any sequence of `checkRateLimit` calls, every stored entry
satisfies `count ≤ maxRequests` — in particular while `now ≤
resetTime`; the bound is an invariant preserved by every call. -/
theorem reachable_count_le_max (m : RateLimitMap) (h : Reachable m) :
    ∀ k e, mapGet m k = some e → e.count ≤ RATE_LIMIT.maxRequests := by
  induction h with
  | empty =>
      intro k e hk
      simp [mapGet] at hk
  | step ip now m hm ih =>
      exact checkRateLimit_preserves_count_le ip now m ih

/-- Witness for C4 at a concrete input: the map after one call from the
empty map stores count 1 for the caller, which is within the cap. -/
theorem reachable_count_le_max_witness :
    (⟨1, 3600000⟩ : RateLimitEntry).count ≤ RATE_LIMIT.maxRequests :=
  reachable_count_le_max (checkRateLimit "a" 0 []).2
    (Reachable.step "a" 0 [] Reachable.empty) "a" ⟨1, 3600000⟩ (by decide)

/-!
Sequences of rate-limit calls for one key (C2).
-/

/-- Run `checkRateLimit` for one key at each time in `times`, threading
the map; returns the list of per-call results and the final map. -/
def callSeq (ip : String) (times : List Nat) (m : RateLimitMap) :
    List RateLimitResult × RateLimitMap :=
  match times with
  | [] => ([], m)
  | t :: rest =>
      let first := checkRateLimit ip t m
      let tail := callSeq ip rest first.2
      (first.1 :: tail.1, tail.2)

/-- A run of in-window calls starting from an existing under-quota
entry: every call is allowed with the counter advancing by one, and
the final entry holds the accumulated count with the window boundary
untouched. -/
theorem callSeq_results (ip : String) (r : Nat) :
    ∀ (ts : List Nat) (c : Nat) (m : RateLimitMap),
      mapGet m ip = some ⟨c, r⟩ →
      (∀ t ∈ ts, t ≤ r) →
      c + ts.length ≤ RATE_LIMIT.maxRequests →
      (∀ n, n < ts.length →
        (callSeq ip ts m).1.get? n =
          some { allowed := true
                 remaining := (RATE_LIMIT.maxRequests : Int) - ((c + n + 1 : Nat) : Int)
                 resetTime := r }) ∧
      mapGet (callSeq ip ts m).2 ip = some ⟨c + ts.length, r⟩ := by
  intro ts
  induction ts with
  | nil =>
      intro c m hm hts hcnt
      refine ⟨?_, by simpa [callSeq] using hm⟩
      intro n hn
      simp at hn
  | cons t rest ih =>
      intro c m hm hts hcnt
      have ht : t ≤ r := hts t (List.mem_cons_self t rest)
      have hc : c < RATE_LIMIT.maxRequests := by
        simp only [List.length_cons] at hcnt
        omega
      have hstep := checkRateLimit_allowed ip t m c r hm ht hc
      have hm1 : mapGet (mapSet m ip ⟨c + 1, r⟩) ip = some ⟨c + 1, r⟩ := by
        rw [mapGet_mapSet]
        simp
      have hts1 : ∀ t' ∈ rest, t' ≤ r := fun t' h => hts t' (List.mem_cons_of_mem t h)
      have hcnt1 : (c + 1) + rest.length ≤ RATE_LIMIT.maxRequests := by
        simp only [List.length_cons] at hcnt
        omega
      obtain ⟨hres, hfin⟩ := ih (c + 1) (mapSet m ip ⟨c + 1, r⟩) hm1 hts1 hcnt1
      have h1 : (callSeq ip (t :: rest) m).1 =
          ({ allowed := true
             remaining := (RATE_LIMIT.maxRequests : Int) - ((c + 1 : Nat) : Int)
             resetTime := r } : RateLimitResult) ::
          (callSeq ip rest (mapSet m ip ⟨c + 1, r⟩)).1 := by
        simp only [callSeq, hstep]
      have h2 : (callSeq ip (t :: rest) m).2 =
          (callSeq ip rest (mapSet m ip ⟨c + 1, r⟩)).2 := by
        simp only [callSeq, hstep]
      constructor
      · intro n hn
        rw [h1]
        cases n with
        | zero => simp
        | succ j =>
            rw [List.get?_cons_succ]
            have hj : j < rest.length := by
              simp only [List.length_cons] at hn
              omega
            have hr := hres j hj
            have harith : c + 1 + j + 1 = c + (j + 1) + 1 := by omega
            rw [harith] at hr
            exact hr
      · rw [h2, hfin]
        have harith : c + 1 + rest.length = c + (rest.length + 1) := by omega
        rw [harith]
        rfl

/-- A POST request whose rate check denies produces exactly the 429
response of `src/api/chat.ts` lines 62-69, with no headers set
(`setHeader` runs only after this early return), the map as the denial
left it, and no upstream call. -/
theorem handler_denied (req : Request) (key : Option String) (now : Nat)
    (up : UpstreamOutcome) (m : RateLimitMap)
    (hpost : req.method = "POST")
    (hdeny : (checkRateLimit (clientIP req) now m).1.allowed = false) :
    handler req key now up m =
      { response :=
          { status := 429
            body :=
              { error := some "Rate limit exceeded"
                message := some ("Too many requests. Rate limit resets at "
                  ++ toISOString (checkRateLimit (clientIP req) now m).1.resetTime)
                resetTime := some (checkRateLimit (clientIP req) now m).1.resetTime }
            headers := [] }
        map := (checkRateLimit (clientIP req) now m).2
        upstreamCalled := false } := by
  simp only [handler, hpost, hdeny]
  simp

/-- C2: starting from no entry for the key, consider a first call at
`t0` followed by further calls at times `ts`, all within the window
the first call opened (`≤ t0 + windowMs`), with at most `maxRequests`
calls in total.  Then the (n+1)st call of the run (0-based `n`)
returns `allowed = true` with `remaining = maxRequests - (n+1)`; and
if the run used up exactly `maxRequests` calls, one more
`checkRateLimit` call within the same window returns `allowed =
false`, which `handler` turns into a 429 response for any POST request
resolving to the same client key. -/
theorem window_quota_then_429 (ip : String) (t0 : Nat) (ts : List Nat)
    (m : RateLimitMap)
    (h0 : mapGet m ip = none)
    (hts : ∀ t ∈ ts, t ≤ t0 + RATE_LIMIT.windowMs)
    (hN : ts.length + 1 ≤ RATE_LIMIT.maxRequests) :
    (∀ n, n < ts.length + 1 →
      (callSeq ip (t0 :: ts) m).1.get? n =
        some { allowed := true
               remaining := (RATE_LIMIT.maxRequests : Int) - ((n + 1 : Nat) : Int)
               resetTime := t0 + RATE_LIMIT.windowMs }) ∧
    (ts.length + 1 = RATE_LIMIT.maxRequests →
      ∀ (t' : Nat) (req : Request) (key : Option String) (up : UpstreamOutcome),
        t' ≤ t0 + RATE_LIMIT.windowMs →
        req.method = "POST" →
        clientIP req = ip →
        (checkRateLimit ip t' (callSeq ip (t0 :: ts) m).2).1.allowed = false ∧
        (handler req key t' up (callSeq ip (t0 :: ts) m).2).response.status = 429) := by
  have hfresh := checkRateLimit_fresh ip t0 m h0
  have hm1 : mapGet (mapSet m ip ⟨1, t0 + RATE_LIMIT.windowMs⟩) ip =
      some ⟨1, t0 + RATE_LIMIT.windowMs⟩ := by
    rw [mapGet_mapSet]
    simp
  obtain ⟨hres, hfin⟩ := callSeq_results ip (t0 + RATE_LIMIT.windowMs) ts 1
    (mapSet m ip ⟨1, t0 + RATE_LIMIT.windowMs⟩) hm1 hts (by omega)
  have h1 : (callSeq ip (t0 :: ts) m).1 =
      ({ allowed := true
         remaining := (RATE_LIMIT.maxRequests : Int) - 1
         resetTime := t0 + RATE_LIMIT.windowMs } : RateLimitResult) ::
      (callSeq ip ts (mapSet m ip ⟨1, t0 + RATE_LIMIT.windowMs⟩)).1 := by
    simp only [callSeq, hfresh]
  have h2 : (callSeq ip (t0 :: ts) m).2 =
      (callSeq ip ts (mapSet m ip ⟨1, t0 + RATE_LIMIT.windowMs⟩)).2 := by
    simp only [callSeq, hfresh]
  constructor
  · intro n hn
    rw [h1]
    cases n with
    | zero => simp
    | succ j =>
        rw [List.get?_cons_succ]
        have hj : j < ts.length := by omega
        have hr := hres j hj
        have harith : 1 + j + 1 = j + 1 + 1 := by omega
        rw [harith] at hr
        exact hr
  · intro hfull t' req key up ht' hpost hip
    have hfin' : mapGet (callSeq ip (t0 :: ts) m).2 ip =
        some ⟨1 + ts.length, t0 + RATE_LIMIT.windowMs⟩ := by
      rw [h2]
      exact hfin
    have hcount : RATE_LIMIT.maxRequests ≤ 1 + ts.length := by omega
    have hdeny := checkRateLimit_denied ip t' (callSeq ip (t0 :: ts) m).2
      (1 + ts.length) (t0 + RATE_LIMIT.windowMs) hfin' ht' hcount
    refine ⟨by rw [hdeny], ?_⟩
    have hdeny' : (checkRateLimit (clientIP req) t' (callSeq ip (t0 :: ts) m).2).1.allowed
        = false := by
      rw [hip, hdeny]
    rw [handler_denied req key t' up (callSeq ip (t0 :: ts) m).2 hpost hdeny']

/-- Witness for C2 at a concrete input: from the empty map, the first
call of a one-call run is admitted with `remaining = maxRequests - 1`
and the fresh window boundary. -/
theorem window_quota_then_429_witness :
    (callSeq "a" ((0 : Nat) :: ([] : List Nat)) ([] : RateLimitMap)).1.get? 0 =
      some { allowed := true
             remaining := (RATE_LIMIT.maxRequests : Int) - ((0 + 1 : Nat) : Int)
             resetTime := 0 + RATE_LIMIT.windowMs } :=
  (window_quota_then_429 "a" 0 [] [] (by decide) (by simp) (by decide)).1 0
    (by decide)

/-!
Rate-limit headers (C1) and the non-POST frame property (C10).
-/

/-- Counterexample to C1 as stated: a POST request denied by the rate
check is answered 429 with NO rate-limit headers at all — the three
`setHeader` calls in `src/api/chat.ts` (lines 72-74) run only after
the 429 early return (lines 62-69), so this non-405 response carries
neither `X-RateLimit-Limit` nor the other two headers. -/
theorem rate_headers_counterexample :
    (handler
      { method := "POST", xForwardedFor := none, xRealIp := none,
        remoteAddress := none, authorization := some "Bearer s",
        message := some "hola" }
      (some "s") 1000 UpstreamOutcome.exception
      [("unknown", ⟨100, 5000⟩)]).response.status = 429 ∧
    (handler
      { method := "POST", xForwardedFor := none, xRealIp := none,
        remoteAddress := none, authorization := some "Bearer s",
        message := some "hola" }
      (some "s") 1000 UpstreamOutcome.exception
      [("unknown", ⟨100, 5000⟩)]).response.headers = [] := by
  constructor <;> rfl

/-- C1 amended: the handler sets the response headers
`X-RateLimit-Limit`, `X-RateLimit-Remaining` and `X-RateLimit-Reset`,
with the values from the rate check, on every POST request that the
rate check admits — including the 401/400 error responses and the
500/200 upstream outcomes — but NOT on 429 rate-limit-denied
responses, which return before any header is set. -/
theorem rate_headers_on_allowed (req : Request) (key : Option String)
    (now : Nat) (up : UpstreamOutcome) (m : RateLimitMap)
    (hpost : req.method = "POST")
    (hallow : (checkRateLimit (clientIP req) now m).1.allowed = true) :
    (handler req key now up m).response.headers =
      [("X-RateLimit-Limit", (RATE_LIMIT.maxRequests : Int)),
       ("X-RateLimit-Remaining", (checkRateLimit (clientIP req) now m).1.remaining),
       ("X-RateLimit-Reset", ((checkRateLimit (clientIP req) now m).1.resetTime : Int))] := by
  simp only [handler, hpost, hallow]
  simp only [ne_eq, not_true_eq_false, if_false, Bool.true_eq_false, ite_false]
  repeat' split
  all_goals rfl

/-- Witness for C1's amended theorem at a concrete input: an admitted
request that then fails authentication still gets the three headers. -/
theorem rate_headers_on_allowed_witness :
    (handler
      { method := "POST", xForwardedFor := none, xRealIp := none,
        remoteAddress := none, authorization := none,
        message := some "hola" }
      (some "s") 1000 UpstreamOutcome.exception []).response.headers =
      [("X-RateLimit-Limit", (RATE_LIMIT.maxRequests : Int)),
       ("X-RateLimit-Remaining",
        (checkRateLimit
          (clientIP { method := "POST", xForwardedFor := none, xRealIp := none,
                      remoteAddress := none, authorization := none,
                      message := some "hola" }) 1000 []).1.remaining),
       ("X-RateLimit-Reset",
        ((checkRateLimit
          (clientIP { method := "POST", xForwardedFor := none, xRealIp := none,
                      remoteAddress := none, authorization := none,
                      message := some "hola" }) 1000 []).1.resetTime : Int))] :=
  rate_headers_on_allowed
    { method := "POST", xForwardedFor := none, xRealIp := none,
      remoteAddress := none, authorization := none, message := some "hola" }
    (some "s") 1000 UpstreamOutcome.exception [] rfl (by decide)

/-- C10: a request whose method is not POST is answered 405 with body
`{ error: "Method not allowed" }`, no headers are set, the rate-limit
map is returned exactly as it was (no entry created, incremented or
replaced for any key), and the upstream is not called. -/
theorem non_post_is_pure_405 (req : Request) (key : Option String)
    (now : Nat) (up : UpstreamOutcome) (m : RateLimitMap)
    (hm : req.method ≠ "POST") :
    handler req key now up m =
      { response :=
          { status := 405
            body := { error := some "Method not allowed" }
            headers := [] }
        map := m
        upstreamCalled := false } := by
  simp [handler, hm]

/-- Witness for C10 at a concrete input: a GET request bounces off an
existing map without touching it. -/
theorem non_post_is_pure_405_witness :
    handler
      { method := "GET", xForwardedFor := none, xRealIp := none,
        remoteAddress := none, authorization := some "Bearer s",
        message := some "hola" }
      (some "s") 1000 UpstreamOutcome.exception
      [("unknown", ⟨3, 5000⟩)] =
      { response :=
          { status := 405
            body := { error := some "Method not allowed" }
            headers := [] }
        map := [("unknown", ⟨3, 5000⟩)]
        upstreamCalled := false } :=
  non_post_is_pure_405
    { method := "GET", xForwardedFor := none, xRealIp := none,
      remoteAddress := none, authorization := some "Bearer s",
      message := some "hola" }
    (some "s") 1000 UpstreamOutcome.exception
    [("unknown", ⟨3, 5000⟩)] (by decide)

/-!
Authentication, validation and upstream error collapsing (C6, C7, C8).
-/

/-- C7: for a POST request past the rate check, an absent
`authorization` header and a header not starting with `Bearer ` both
yield 401 with the identical body `{ error: "Authorization header
required" }`, while a `Bearer `-shaped header whose extracted token
differs from the configured secret yields 401 with `{ error: "Invalid
API key" }`. -/
theorem auth_error_responses (req : Request) (key : Option String)
    (now : Nat) (up : UpstreamOutcome) (m : RateLimitMap)
    (hpost : req.method = "POST")
    (hallow : (checkRateLimit (clientIP req) now m).1.allowed = true) :
    (req.authorization = none →
      (handler req key now up m).response.status = 401 ∧
      (handler req key now up m).response.body =
        { error := some "Authorization header required" }) ∧
    (∀ auth, req.authorization = some auth →
      jsStartsWith auth "Bearer " = false →
      (handler req key now up m).response.status = 401 ∧
      (handler req key now up m).response.body =
        { error := some "Authorization header required" }) ∧
    (∀ auth secret, req.authorization = some auth →
      jsStartsWith auth "Bearer " = true →
      key = some secret →
      jsReplace auth "Bearer " "" ≠ secret →
      (handler req key now up m).response.status = 401 ∧
      (handler req key now up m).response.body =
        { error := some "Invalid API key" }) := by
  refine ⟨?_, ?_, ?_⟩
  · intro hnone
    constructor <;> (simp only [handler, hpost, hallow, hnone]; simp)
  · intro auth hauth hbearer
    constructor <;> (simp only [handler, hpost, hallow, hauth, hbearer]; simp)
  · intro auth secret hauth hbearer hkey hne
    have hcond : key ≠ some (jsReplace auth "Bearer " "") := by
      rw [hkey]
      intro h
      exact hne (Option.some.inj h).symm
    constructor <;>
      (simp only [handler, hpost, hallow, hauth, hbearer]; simp [hcond])

/-- Witness for C7 at a concrete input: a request with no
`authorization` header is answered 401 / Authorization header
required. -/
theorem auth_error_responses_witness :
    (handler
      { method := "POST", xForwardedFor := none, xRealIp := none,
        remoteAddress := none, authorization := none,
        message := some "hola" }
      (some "s") 0 UpstreamOutcome.exception []).response.status = 401 ∧
    (handler
      { method := "POST", xForwardedFor := none, xRealIp := none,
        remoteAddress := none, authorization := none,
        message := some "hola" }
      (some "s") 0 UpstreamOutcome.exception []).response.body =
      { error := some "Authorization header required" } :=
  (auth_error_responses
    { method := "POST", xForwardedFor := none, xRealIp := none,
      remoteAddress := none, authorization := none, message := some "hola" }
    (some "s") 0 UpstreamOutcome.exception [] rfl (by decide)).1 rfl

/-- C8: an authenticated, rate-admitted POST request whose body
`message` is absent or the empty string gets 400 with body
`{ error: "Message is required" }` — identically in both cases — and
the upstream completion API is not invoked. -/
theorem missing_message_400 (req : Request) (key : Option String)
    (now : Nat) (up : UpstreamOutcome) (m : RateLimitMap) (auth : String)
    (hpost : req.method = "POST")
    (hallow : (checkRateLimit (clientIP req) now m).1.allowed = true)
    (hauth : req.authorization = some auth)
    (hbearer : jsStartsWith auth "Bearer " = true)
    (hkey : key = some (jsReplace auth "Bearer " ""))
    (hmsg : req.message = none ∨ req.message = some "") :
    (handler req key now up m).response.status = 400 ∧
    (handler req key now up m).response.body =
      { error := some "Message is required" } ∧
    (handler req key now up m).upstreamCalled = false := by
  rcases hmsg with hmsg | hmsg <;>
    refine ⟨?_, ?_, ?_⟩ <;>
      (simp only [handler, hpost, hallow, hauth, hbearer, hmsg]; simp [hkey])

/-- Witness for C8 at a concrete input: a valid Bearer request with an
absent message is answered 400 and the upstream is never called. -/
theorem missing_message_400_witness :
    (handler
      { method := "POST", xForwardedFor := none, xRealIp := none,
        remoteAddress := none, authorization := some "Bearer s",
        message := none }
      (some "s") 0 UpstreamOutcome.exception []).response.status = 400 ∧
    (handler
      { method := "POST", xForwardedFor := none, xRealIp := none,
        remoteAddress := none, authorization := some "Bearer s",
        message := none }
      (some "s") 0 UpstreamOutcome.exception []).response.body =
      { error := some "Message is required" } ∧
    (handler
      { method := "POST", xForwardedFor := none, xRealIp := none,
        remoteAddress := none, authorization := some "Bearer s",
        message := none }
      (some "s") 0 UpstreamOutcome.exception []).upstreamCalled = false :=
  missing_message_400
    { method := "POST", xForwardedFor := none, xRealIp := none,
      remoteAddress := none, authorization := some "Bearer s",
      message := none }
    (some "s") 0 UpstreamOutcome.exception [] "Bearer s" rfl (by decide) rfl
    (by decide) (by decide) (Or.inl rfl)

/-- C6: for a POST request that passes the rate check, authentication
and message validation, the three upstream failure modes — a transport
exception, a non-ok HTTP status, and an ok response whose first
choice's message content is absent or null — all produce the identical
externally visible result: status 500 with body `{ error: "Failed to
get response from AI" }` (and the same rate-limit headers), with the
upstream call having been made; nothing in the response distinguishes
why the upstream call failed. -/
theorem upstream_failures_identical (req : Request) (key : Option String)
    (now : Nat) (m : RateLimitMap) (auth msg : String)
    (hpost : req.method = "POST")
    (hallow : (checkRateLimit (clientIP req) now m).1.allowed = true)
    (hauth : req.authorization = some auth)
    (hbearer : jsStartsWith auth "Bearer " = true)
    (hkey : key = some (jsReplace auth "Bearer " ""))
    (hmsg : req.message = some msg)
    (hne : msg ≠ "") :
    ∀ up : UpstreamOutcome,
      (up = UpstreamOutcome.exception ∨
       (∃ s d, up = UpstreamOutcome.response false s d) ∨
       (∃ s d, up = UpstreamOutcome.response true s d ∧ extractContent d = none)) →
      (handler req key now up m).response =
        { status := 500
          body := { error := some "Failed to get response from AI" }
          headers :=
            [("X-RateLimit-Limit", (RATE_LIMIT.maxRequests : Int)),
             ("X-RateLimit-Remaining",
              (checkRateLimit (clientIP req) now m).1.remaining),
             ("X-RateLimit-Reset",
              ((checkRateLimit (clientIP req) now m).1.resetTime : Int))] } ∧
      (handler req key now up m).upstreamCalled = true := by
  intro up hup
  rcases hup with h | ⟨s, d, h⟩ | ⟨s, d, h, hc⟩
  · subst h
    constructor <;>
      (simp only [handler, hpost, hallow, hauth, hbearer, hmsg]; simp [hkey, hne])
  · subst h
    constructor <;>
      (simp only [handler, hpost, hallow, hauth, hbearer, hmsg]; simp [hkey, hne])
  · subst h
    constructor <;>
      (simp only [handler, hpost, hallow, hauth, hbearer, hmsg]; simp [hkey, hne, hc])

/-- Witness for C6 at a concrete input: an authenticated valid request
whose upstream call throws is answered 500 / Failed to get response
from AI. -/
theorem upstream_failures_identical_witness :
    (handler
      { method := "POST", xForwardedFor := none, xRealIp := none,
        remoteAddress := none, authorization := some "Bearer s",
        message := some "hola" }
      (some "s") 0 UpstreamOutcome.exception []).response =
      { status := 500
        body := { error := some "Failed to get response from AI" }
        headers :=
          [("X-RateLimit-Limit", (RATE_LIMIT.maxRequests : Int)),
           ("X-RateLimit-Remaining",
            (checkRateLimit
              (clientIP { method := "POST", xForwardedFor := none, xRealIp := none,
                          remoteAddress := none, authorization := some "Bearer s",
                          message := some "hola" }) 0 []).1.remaining),
           ("X-RateLimit-Reset",
            ((checkRateLimit
              (clientIP { method := "POST", xForwardedFor := none, xRealIp := none,
                          remoteAddress := none, authorization := some "Bearer s",
                          message := some "hola" }) 0 []).1.resetTime : Int))] } ∧
    (handler
      { method := "POST", xForwardedFor := none, xRealIp := none,
        remoteAddress := none, authorization := some "Bearer s",
        message := some "hola" }
      (some "s") 0 UpstreamOutcome.exception []).upstreamCalled = true :=
  upstream_failures_identical
    { method := "POST", xForwardedFor := none, xRealIp := none,
      remoteAddress := none, authorization := some "Bearer s",
      message := some "hola" }
    (some "s") 0 [] "Bearer s" "hola" rfl (by decide) rfl (by decide) (by decide)
    rfl (by decide) UpstreamOutcome.exception (Or.inl rfl)
